import Mathlib

/-
Verification of the navmesh vector-geometry core (src/nav_vec3.rs).

The Rust scalar type is idealized as the real numbers; every operation of
the source file that the claims touch is translated one-to-one below.
-/

open scoped Classical

noncomputable section

/-- Modelled from the spec: the crate's scalar type (a floating-point number,
defined outside this core in the crate root), idealized as the real numbers;
IEEE special values are out of scope. -/
abbrev Scalar : Type := ℝ

/-- Modelled from the spec: the single process-wide zero-threshold constant
(defined in the crate root, outside this core) governing all degeneracy
checks; the crate uses 1e-6. -/
def ZERO_TRESHOLD : Scalar := 1 / 1000000

/-- Modelled from the spec: the connection marker produced by the
triangle-triangle intersection, a pair of small vertex indices identifying an
edge of the first triangle (defined in nav_mesh.rs, outside this core). -/
structure NavConnection where
  fst : Nat
  snd : Nat
deriving DecidableEq

/-- The 3-component vector/point value type of nav_vec3.rs. -/
@[ext]
structure NavVec3 where
  x : Scalar
  y : Scalar
  z : Scalar

namespace NavVec3

instance : Add NavVec3 := ⟨fun a b => ⟨a.x + b.x, a.y + b.y, a.z + b.z⟩⟩

instance : Sub NavVec3 := ⟨fun a b => ⟨a.x - b.x, a.y - b.y, a.z - b.z⟩⟩

instance : Neg NavVec3 := ⟨fun a => ⟨-a.x, -a.y, -a.z⟩⟩

instance : HMul NavVec3 Scalar NavVec3 := ⟨fun a s => ⟨a.x * s, a.y * s, a.z * s⟩⟩

def sqr_magnitude (v : NavVec3) : Scalar :=
  v.x * v.x + v.y * v.y + v.z * v.z

def magnitude (v : NavVec3) : Scalar :=
  Real.sqrt v.sqr_magnitude

def cross (v other : NavVec3) : NavVec3 :=
  ⟨v.y * other.z - v.z * other.y,
   v.z * other.x - v.x * other.z,
   v.x * other.y - v.y * other.x⟩

def dot (v other : NavVec3) : Scalar :=
  v.x * other.x + v.y * other.y + v.z * other.z

def normalize (v : NavVec3) : NavVec3 :=
  if v.magnitude < ZERO_TRESHOLD then ⟨0, 0, 0⟩
  else ⟨v.x / v.magnitude, v.y / v.magnitude, v.z / v.magnitude⟩

def project (v f t : NavVec3) : Scalar :=
  (v - f).dot (t - f) / (t - f).sqr_magnitude

def unproject (f t : NavVec3) (s : Scalar) : NavVec3 :=
  f + ⟨(t - f).x * s, (t - f).y * s, (t - f).z * s⟩

def distance_to_plane (v origin normal : NavVec3) : Scalar :=
  normal.dot (v - origin)

def is_above_plane (v origin normal : NavVec3) : Prop :=
  distance_to_plane v origin normal > -ZERO_TRESHOLD

def project_on_plane (v origin normal : NavVec3) : NavVec3 :=
  let w := v - origin
  let n := normal.normalize
  let d := w.dot n
  v - ⟨normal.x * d, normal.y * d, normal.z * d⟩

def raycast_plane (f t origin normal : NavVec3) : Option NavVec3 :=
  if ZERO_TRESHOLD < |normal.dot ((t - f).normalize)| then
    if 0 ≤ (origin - f).dot normal / normal.dot ((t - f).normalize) ∧
        (origin - f).dot normal / normal.dot ((t - f).normalize) ≤ (t - f).magnitude then
      some (f + ((t - f).normalize) * ((origin - f).dot normal / normal.dot ((t - f).normalize)))
    else none
  else none

def raycast_line (f t a b normal : NavVec3) : Option NavVec3 :=
  match raycast_plane f t a normal with
  | none => none
  | some p => some (unproject a b (min (max (project p a b) 0) 1))

def raycast_line_exact (f t a b normal : NavVec3) : Option NavVec3 :=
  match raycast_plane f t a normal with
  | none => none
  | some p =>
    if 0 ≤ project p a b ∧ project p a b ≤ 1 then some (unproject a b (project p a b))
    else none

def side (v : Scalar) : ℤ :=
  if |v| < ZERO_TRESHOLD then 0
  else if 0 < v then 1 else -1

def is_line_between_points (f t a b normal : NavVec3) : Prop :=
  side (((t - f).cross normal).dot (a - f)) ≠ side (((t - f).cross normal).dot (b - f))

def does_line_crosses_triangle (f t a b c : NavVec3) : Prop :=
  let tab := (b - a).normalize
  let tbc := (c - b).normalize
  let tca := (a - c).normalize
  let n := (tab.cross tbc).normalize
  let nab := tab.cross n
  let nbc := tbc.cross n
  let nca := tca.cross n
  (is_above_plane f a (-nab) ∧ is_above_plane f b (-nbc) ∧ is_above_plane f c (-nca)) ∨
  (is_above_plane t a (-nab) ∧ is_above_plane t b (-nbc) ∧ is_above_plane t c (-nca))

/-- The unit normal a triangle's vertices induce in the source
(normalized cross product of the two normalized leading edges). -/
def triangleNormal (a b c : NavVec3) : NavVec3 :=
  (((b - a).normalize).cross ((c - b).normalize)).normalize

/-- The plane-crossing contact points of triangle 2's three edges against
triangle 1's plane (step 2 of triangles_intersection). -/
def trianglesContacts (a1 b1 c1 a2 b2 c2 : NavVec3) : List NavVec3 :=
  [(a2, b2), (b2, c2), (c2, a2)].filterMap
    (fun e => raycast_plane e.1 e.2 a1 (triangleNormal a1 b1 c1))

/-- The pairwise deduplication loop of triangles_intersection: an entry is
kept exactly when no later entry lies within the zero threshold of it. -/
def dedup : List NavVec3 → List NavVec3
  | [] => []
  | p :: rest =>
    if ∃ q ∈ rest, (p - q).sqr_magnitude < ZERO_TRESHOLD then dedup rest
    else p :: dedup rest

/-- triangles_intersection up to (and including) the clip-resolution match,
before the final orientation step. -/
def triangles_intersection_step (a1 b1 c1 a2 b2 c2 : NavVec3) :
    Option ((NavVec3 × Option NavConnection) × (NavVec3 × Option NavConnection) × NavVec3) :=
  let n1 := triangleNormal a1 b1 c1
  let n2 := triangleNormal a2 b2 c2
  match dedup (trianglesContacts a1 b1 c1 a2 b2 c2) with
  | [sb, se] =>
    if does_line_crosses_triangle sb se a1 b1 c1 then
      let no := (project_on_plane (n2 * (100 : Scalar)) a1 n1).normalize
      match ([(a1, b1, (0 : Nat), (1 : Nat)), (b1, c1, 1, 2), (c1, a1, 2, 0)]).filterMap
          (fun q => (raycast_line_exact q.1 q.2.1 sb se no).map
            (fun p => (p, NavConnection.mk q.2.2.1 q.2.2.2))) with
      | [u, v] =>
        if (v.1 - u.1).sqr_magnitude < ZERO_TRESHOLD then none
        else some ((u.1, some u.2), (v.1, some v.2), no)
      | [u] =>
        let pb := [a1, b1, c1].getD u.2.fst ⟨0, 0, 0⟩
        let pe := [a1, b1, c1].getD u.2.snd ⟨0, 0, 0⟩
        let nn := ((pe - pb).cross n1).normalize
        if distance_to_plane sb pb nn > distance_to_plane se pb nn then
          if (u.1 - se).sqr_magnitude < ZERO_TRESHOLD then none
          else some ((u.1, some u.2), (se, none), no)
        else
          if (u.1 - sb).sqr_magnitude < ZERO_TRESHOLD then none
          else some ((sb, none), (u.1, some u.2), no)
      | _ => some ((sb, none), (se, none), no)
    else none
  | _ => none

/-- Full triangles_intersection: the resolution step above followed by the
canonical orientation of the resulting endpoint pair. -/
def triangles_intersection (a1 b1 c1 a2 b2 c2 : NavVec3) :
    Option ((NavVec3 × Option NavConnection) × (NavVec3 × Option NavConnection) × NavVec3) :=
  match triangles_intersection_step a1 b1 c1 a2 b2 c2 with
  | some (b, e, n) =>
    if 0 ≤ (n.cross (e.1 - b.1)).z then some (b, e, n) else some (e, b, n)
  | none => none

/-- Dimensionality reported by the spade PointN adapter. -/
def dimensions : Nat := 3

/-- Indexed component read of the PointN adapter; the source's unreachable
branch for an out-of-range index is modelled as none. -/
def nth (v : NavVec3) : Nat → Option Scalar
  | 0 => some v.x
  | 1 => some v.y
  | 2 => some v.z
  | _ => none

/-- Indexed component write of the PointN adapter (nth_mut), modelled as a
functional update; the source's unreachable branch is modelled as none. -/
def nth_set (v : NavVec3) (i : Nat) (s : Scalar) : Option NavVec3 :=
  match i with
  | 0 => some ⟨s, v.y, v.z⟩
  | 1 => some ⟨v.x, s, v.z⟩
  | 2 => some ⟨v.x, v.y, s⟩
  | _ => none

/-- from_value of the PointN adapter. -/
def from_value (s : Scalar) : NavVec3 := ⟨s, s, s⟩

theorem sub_mk (a b c d e f : Scalar) :
    (⟨a, b, c⟩ : NavVec3) - ⟨d, e, f⟩ = ⟨a - d, b - e, c - f⟩ := rfl

theorem add_mk (a b c d e f : Scalar) :
    (⟨a, b, c⟩ : NavVec3) + ⟨d, e, f⟩ = ⟨a + d, b + e, c + f⟩ := rfl

theorem neg_mk (a b c : Scalar) : -(⟨a, b, c⟩ : NavVec3) = ⟨-a, -b, -c⟩ := rfl

theorem smul_mk (a b c s : Scalar) :
    (⟨a, b, c⟩ : NavVec3) * s = ⟨a * s, b * s, c * s⟩ := rfl

theorem cross_mk (a b c d e f : Scalar) :
    (⟨a, b, c⟩ : NavVec3).cross ⟨d, e, f⟩ = ⟨b * f - c * e, c * d - a * f, a * e - b * d⟩ := rfl

theorem dot_mk (a b c d e f : Scalar) :
    (⟨a, b, c⟩ : NavVec3).dot ⟨d, e, f⟩ = a * d + b * e + c * f := rfl

theorem sqr_magnitude_mk (a b c : Scalar) :
    (⟨a, b, c⟩ : NavVec3).sqr_magnitude = a * a + b * b + c * c := rfl

theorem magnitude_mk (a b c : Scalar) :
    (⟨a, b, c⟩ : NavVec3).magnitude = Real.sqrt (a * a + b * b + c * c) := rfl

theorem zero_lt_treshold : (0 : ℝ) < ZERO_TRESHOLD := by norm_num [ZERO_TRESHOLD]

theorem magnitude_eq (v : NavVec3) (m : ℝ) (h0 : 0 ≤ m) (h : v.sqr_magnitude = m * m) :
    v.magnitude = m := by
  rw [magnitude, h]
  exact Real.sqrt_mul_self h0

theorem normalize_of_lt (v : NavVec3) (h : v.magnitude < ZERO_TRESHOLD) :
    v.normalize = ⟨0, 0, 0⟩ := by
  rw [normalize, if_pos h]

theorem normalize_of_le (v : NavVec3) (h : ZERO_TRESHOLD ≤ v.magnitude) :
    v.normalize = ⟨v.x / v.magnitude, v.y / v.magnitude, v.z / v.magnitude⟩ := by
  rw [normalize, if_neg (not_lt.mpr h)]

theorem normalize_eval (v : NavVec3) (m : ℝ) (h0 : 0 ≤ m) (h : v.sqr_magnitude = m * m)
    (hT : ZERO_TRESHOLD ≤ m) :
    v.normalize = ⟨v.x / m, v.y / m, v.z / m⟩ := by
  have hm : v.magnitude = m := magnitude_eq v m h0 h
  rw [normalize_of_le v (hm ▸ hT), hm]

theorem magnitude_zero_vec : (⟨0, 0, 0⟩ : NavVec3).magnitude = 0 := by
  rw [magnitude_mk]
  norm_num

theorem normalize_zero_vec : (⟨0, 0, 0⟩ : NavVec3).normalize = ⟨0, 0, 0⟩ :=
  normalize_of_lt _ (by rw [magnitude_zero_vec]; exact zero_lt_treshold)

theorem dot_zero_right (v : NavVec3) : v.dot ⟨0, 0, 0⟩ = 0 := by
  simp [dot]

theorem sub_self_vec (v : NavVec3) : v - v = ⟨0, 0, 0⟩ := by
  cases v
  rw [sub_mk]
  norm_num

theorem raycast_plane_none_of_denom (f t origin normal : NavVec3)
    (h : ¬ ZERO_TRESHOLD < |normal.dot ((t - f).normalize)|) :
    raycast_plane f t origin normal = none := by
  rw [raycast_plane, if_neg h]

theorem raycast_plane_eval (f t origin normal d : NavVec3) (m s : ℝ)
    (hd : (t - f).normalize = d) (hm : (t - f).magnitude = m)
    (hden : ZERO_TRESHOLD < |normal.dot d|)
    (hs : (origin - f).dot normal / normal.dot d = s)
    (h0 : 0 ≤ s) (h1 : s ≤ m) :
    raycast_plane f t origin normal = some (f + d * s) := by
  rw [raycast_plane, hd, hm, hs, if_pos hden, if_pos ⟨h0, h1⟩]

theorem raycast_plane_self (f origin normal : NavVec3) :
    raycast_plane f f origin normal = none := by
  apply raycast_plane_none_of_denom
  rw [sub_self_vec, normalize_zero_vec, dot_zero_right]
  simp [zero_lt_treshold.le, not_lt.mpr zero_lt_treshold.le]

theorem cross_sub_swap (v a b : NavVec3) : v.cross (a - b) = -(v.cross (b - a)) := by
  cases v; cases a; cases b
  rw [sub_mk, sub_mk, cross_mk, cross_mk, neg_mk]
  ext <;> ring

/-- C8: for all vectors a and b, cross(a,b) equals the negation of
cross(b,a) (anticommutativity of the cross product), with no restriction on
the inputs. -/
theorem C8_cross_anticomm (a b : NavVec3) : a.cross b = -(b.cross a) := by
  cases a; cases b
  rw [cross_mk, cross_mk, neg_mk]
  ext <;> ring

/-- C10: for every point, origin and normal, raycast_plane on the
zero-length segment (from = to) returns nothing: the degenerate direction
safe-normalizes to the zero vector, so the denominator never exceeds the
strict zero threshold. -/
theorem C10_raycast_plane_degenerate (f origin normal : NavVec3) :
    raycast_plane f f origin normal = none :=
  raycast_plane_self f origin normal

/-- C4: raycast_plane returns a point exactly when the normalized segment
direction is not near-parallel to the plane (the absolute dot product with
the normal strictly exceeds the zero threshold) and the intersection
parameter lies within [0, length of the segment]. -/
theorem C4_raycast_plane_iff (f t origin normal : NavVec3) :
    (∃ p, raycast_plane f t origin normal = some p) ↔
      (ZERO_TRESHOLD < |normal.dot ((t - f).normalize)| ∧
        0 ≤ (origin - f).dot normal / normal.dot ((t - f).normalize) ∧
        (origin - f).dot normal / normal.dot ((t - f).normalize) ≤ (t - f).magnitude) := by
  unfold raycast_plane
  split_ifs with h1 h2
  · exact iff_of_true ⟨_, rfl⟩ ⟨h1, h2⟩
  · exact iff_of_false (by simp) (fun hh => h2 hh.2)
  · exact iff_of_false (by simp) (fun hh => h1 hh.1)

/-- C5: normalize returns exactly the zero vector when the magnitude is
below the zero threshold, and otherwise a vector of magnitude exactly 1
(hence within any epsilon of 1). -/
theorem C5_normalize (v : NavVec3) :
    (v.magnitude < ZERO_TRESHOLD → v.normalize = ⟨0, 0, 0⟩) ∧
    (ZERO_TRESHOLD ≤ v.magnitude → v.normalize.magnitude = 1) := by
  constructor
  · exact normalize_of_lt v
  · intro h
    have hlen : 0 < v.magnitude := lt_of_lt_of_le zero_lt_treshold h
    have hsq : 0 ≤ v.sqr_magnitude := by
      have : v.sqr_magnitude = v.x * v.x + v.y * v.y + v.z * v.z := rfl
      rw [this]
      exact add_nonneg (add_nonneg (mul_self_nonneg _) (mul_self_nonneg _)) (mul_self_nonneg _)
    have hlen2 : v.magnitude * v.magnitude = v.sqr_magnitude := Real.mul_self_sqrt hsq
    have hsum : v.magnitude * v.magnitude = v.x * v.x + v.y * v.y + v.z * v.z := hlen2
    rw [normalize_of_le v h, magnitude_mk]
    have hne : v.magnitude ≠ 0 := ne_of_gt hlen
    have harg : v.x / v.magnitude * (v.x / v.magnitude) +
        v.y / v.magnitude * (v.y / v.magnitude) +
        v.z / v.magnitude * (v.z / v.magnitude) = 1 := by
      field_simp
      linarith [hsum]
    rw [harg, Real.sqrt_one]

/-- C5 witness: the zero vector safe-normalizes to the zero vector, and a
vector of magnitude 5 normalizes to magnitude exactly 1. -/
theorem C5_normalize_witness :
    (⟨0, 0, 0⟩ : NavVec3).normalize = ⟨0, 0, 0⟩ ∧
    (⟨3, 4, 0⟩ : NavVec3).normalize.magnitude = 1 := by
  constructor
  · exact (C5_normalize ⟨0, 0, 0⟩).1 (by rw [magnitude_zero_vec]; exact zero_lt_treshold)
  · refine (C5_normalize ⟨3, 4, 0⟩).2 ?_
    have h5 : (⟨3, 4, 0⟩ : NavVec3).magnitude = 5 :=
      magnitude_eq _ 5 (by norm_num) (by rw [sqr_magnitude_mk]; norm_num)
    rw [h5]
    norm_num [ZERO_TRESHOLD]

/-- C2 counterexample: with from=(0,0,0), to=(1,0,0), normal=(0,0,1), the
point a=(0,0,0) lies exactly on the dividing line (its side value is 0),
b=(0,1,0) lies strictly on one side, yet is_line_between_points returns
true — refuting the claim that a point exactly on the line forces false. -/
theorem C2_side_zero_counterexample :
    side ((((⟨1, 0, 0⟩ : NavVec3) - ⟨0, 0, 0⟩).cross ⟨0, 0, 1⟩).dot
        ((⟨0, 0, 0⟩ : NavVec3) - ⟨0, 0, 0⟩)) = 0 ∧
    is_line_between_points ⟨0, 0, 0⟩ ⟨1, 0, 0⟩ ⟨0, 0, 0⟩ ⟨0, 1, 0⟩ ⟨0, 0, 1⟩ := by
  have hn : (((⟨1, 0, 0⟩ : NavVec3) - ⟨0, 0, 0⟩).cross ⟨0, 0, 1⟩) = ⟨0, -1, 0⟩ := by
    rw [sub_mk, cross_mk]
    norm_num
  constructor
  · rw [hn, sub_self_vec, dot_zero_right, side, if_pos (by norm_num [ZERO_TRESHOLD])]
  · rw [is_line_between_points, hn]
    rw [show ((⟨0, 0, 0⟩ : NavVec3) - ⟨0, 0, 0⟩) = ⟨0, 0, 0⟩ from sub_self_vec _,
      show ((⟨0, 1, 0⟩ : NavVec3) - ⟨0, 0, 0⟩) = ⟨0, 1, 0⟩ from by rw [sub_mk]; norm_num,
      dot_zero_right, dot_mk]
    rw [show ((0 : ℝ) * 0 + -1 * 1 + 0 * 0) = -1 from by norm_num]
    rw [side, side, if_pos (by norm_num [ZERO_TRESHOLD]),
      if_neg (by rw [abs_neg, abs_one]; norm_num [ZERO_TRESHOLD]), if_neg (by norm_num)]
    norm_num

/-- C2 amended: is_line_between_points returns true exactly when the two
side values of a and b (computed from the cross-product-derived scalar,
with values within the zero threshold counting as 0) differ; in particular
a point exactly on the dividing line with the other point strictly off it
yields true, not false. -/
theorem C2_is_line_between_points_iff (f t a b normal : NavVec3) :
    is_line_between_points f t a b normal ↔
      side (((t - f).cross normal).dot (a - f)) ≠ side (((t - f).cross normal).dot (b - f)) :=
  Iff.rfl

/-- C9: the spade PointN adapter reports dimensionality 3, maps indices
0,1,2 to the x,y,z components for both read and functional-update access,
and any index greater than 2 hits the unreachable branch (modelled as
none). -/
theorem C9_pointn_adapter (v : NavVec3) (s : Scalar) (i : Nat) (hi : 2 < i) :
    dimensions = 3 ∧
    v.nth 0 = some v.x ∧ v.nth 1 = some v.y ∧ v.nth 2 = some v.z ∧
    v.nth_set 0 s = some ⟨s, v.y, v.z⟩ ∧ v.nth_set 1 s = some ⟨v.x, s, v.z⟩ ∧
    v.nth_set 2 s = some ⟨v.x, v.y, s⟩ ∧
    v.nth i = none ∧ v.nth_set i s = none := by
  obtain ⟨k, rfl⟩ : ∃ k, i = k + 3 := ⟨i - 3, by omega⟩
  exact ⟨rfl, rfl, rfl, rfl, rfl, rfl, rfl, rfl, rfl⟩

theorem magnitude_mk_eval (a b c m : ℝ) (h0 : 0 ≤ m) (h : a * a + b * b + c * c = m * m) :
    (⟨a, b, c⟩ : NavVec3).magnitude = m :=
  magnitude_eq _ m h0 (by rw [sqr_magnitude_mk, h])

theorem normalize_mk_eval (a b c m d e f : ℝ) (h0 : 0 ≤ m)
    (h : a * a + b * b + c * c = m * m) (hT : ZERO_TRESHOLD ≤ m)
    (hd : a / m = d) (he : b / m = e) (hf : c / m = f) :
    (⟨a, b, c⟩ : NavVec3).normalize = ⟨d, e, f⟩ := by
  rw [normalize_eval ⟨a, b, c⟩ m h0 (by rw [sqr_magnitude_mk, h]) hT]
  rw [show (⟨a, b, c⟩ : NavVec3).x = a from rfl, show (⟨a, b, c⟩ : NavVec3).y = b from rfl,
    show (⟨a, b, c⟩ : NavVec3).z = c from rfl, hd, he, hf]

/-- Evaluation of the raycast_plane scenario used by the C3 witness: the
vertical unit segment through the origin against the z=0 plane. -/
theorem raycast_plane_scenario1 :
    raycast_plane ⟨0, 0, -1⟩ ⟨0, 0, 1⟩ ⟨0, 0, 0⟩ ⟨0, 0, 1⟩ = some ⟨0, 0, 0⟩ := by
  have hsub : ((⟨0, 0, 1⟩ : NavVec3) - ⟨0, 0, -1⟩) = ⟨0, 0, 2⟩ := by rw [sub_mk]; norm_num
  have hrw := raycast_plane_eval ⟨0, 0, -1⟩ ⟨0, 0, 1⟩ ⟨0, 0, 0⟩ ⟨0, 0, 1⟩ ⟨0, 0, 1⟩ 2 1
    (by rw [hsub, normalize_mk_eval 0 0 2 2 0 0 1 (by norm_num) (by norm_num)
      (by norm_num [ZERO_TRESHOLD]) (by norm_num) (by norm_num) (by norm_num)])
    (by rw [hsub]; exact magnitude_mk_eval 0 0 2 2 (by norm_num) (by norm_num))
    (by rw [dot_mk]; norm_num [ZERO_TRESHOLD])
    (by rw [show ((⟨0, 0, 0⟩ : NavVec3) - ⟨0, 0, -1⟩) = ⟨0, 0, 1⟩ from by rw [sub_mk]; norm_num,
      dot_mk]; norm_num)
    (by norm_num) (by norm_num)
  rw [hrw, smul_mk, add_mk]
  norm_num

/-- C3 counterexample: on the degenerate input with from = to the underlying
plane cast fails, so the clamped variant raycast_line returns nothing — the
claim that it always returns a point is false. -/
theorem C3_raycast_line_counterexample :
    raycast_line ⟨0, 0, 0⟩ ⟨0, 0, 0⟩ ⟨0, 0, 0⟩ ⟨1, 0, 0⟩ ⟨0, 0, 1⟩ = none := by
  simp [raycast_line, raycast_plane_self]

/-- C3 amended: raycast_line returns a point exactly when the underlying
raycast_plane(from, to, a, normal) does; whenever the plane cast yields a
point, the clamped variant forces the interpolation parameter into [0,1]
and returns the corresponding point of the segment (a,b), possibly an
endpoint. -/
theorem C3_raycast_line_clamped (f t a b normal : NavVec3) :
    ((∃ p, raycast_line f t a b normal = some p) ↔
      (∃ p, raycast_plane f t a normal = some p)) ∧
    (∀ p, raycast_plane f t a normal = some p →
      raycast_line f t a b normal = some (unproject a b (min (max (project p a b) 0) 1))) := by
  constructor
  · cases h : raycast_plane f t a normal with
    | none => simp [raycast_line, h]
    | some p => simp [raycast_line, h]
  · intro p hp
    simp [raycast_line, hp]

/-- C3 witness: the clamped cast through the z=0 plane at a concrete input,
with the parameter clamp applied to the projection of the contact point. -/
theorem C3_raycast_line_clamped_witness :
    raycast_line ⟨0, 0, -1⟩ ⟨0, 0, 1⟩ ⟨0, 0, 0⟩ ⟨1, 0, 0⟩ ⟨0, 0, 1⟩ =
      some (unproject ⟨0, 0, 0⟩ ⟨1, 0, 0⟩
        (min (max (project ⟨0, 0, 0⟩ ⟨0, 0, 0⟩ ⟨1, 0, 0⟩) 0) 1)) :=
  (C3_raycast_line_clamped ⟨0, 0, -1⟩ ⟨0, 0, 1⟩ ⟨0, 0, 0⟩ ⟨1, 0, 0⟩ ⟨0, 0, 1⟩).2
    ⟨0, 0, 0⟩ raycast_plane_scenario1

/-- C6: evaluation of project_on_plane at the non-unit normal (0,0,2): the
source scales the original (unnormalized) normal by the projection
coefficient, so the result (0,0,-1) lies at signed distance -1 from the
plane instead of on it (the true orthogonal projection is (0,0,0)). -/
theorem C6_project_on_plane_bug_eval :
    project_on_plane ⟨0, 0, 1⟩ ⟨0, 0, 0⟩ ⟨0, 0, 2⟩ = (⟨0, 0, -1⟩ : NavVec3) ∧
    distance_to_plane (project_on_plane ⟨0, 0, 1⟩ ⟨0, 0, 0⟩ ⟨0, 0, 2⟩) ⟨0, 0, 0⟩
      ((⟨0, 0, 2⟩ : NavVec3).normalize) = -1 := by
  have hn : (⟨0, 0, 2⟩ : NavVec3).normalize = ⟨0, 0, 1⟩ :=
    normalize_mk_eval 0 0 2 2 0 0 1 (by norm_num) (by norm_num)
      (by norm_num [ZERO_TRESHOLD]) (by norm_num) (by norm_num) (by norm_num)
  have h1 : project_on_plane ⟨0, 0, 1⟩ ⟨0, 0, 0⟩ ⟨0, 0, 2⟩ = (⟨0, 0, -1⟩ : NavVec3) := by
    simp only [project_on_plane, hn, sub_mk, dot_mk]
    norm_num
  refine ⟨h1, ?_⟩
  rw [h1, hn, distance_to_plane, sub_mk, dot_mk]
  norm_num

/-- C9 witness: the adapter contract at the concrete vector (0,0,0), write
value 1 and out-of-range index 3. -/
theorem C9_pointn_adapter_witness :
    dimensions = 3 ∧
    (⟨0, 0, 0⟩ : NavVec3).nth 0 = some 0 ∧ (⟨0, 0, 0⟩ : NavVec3).nth 1 = some 0 ∧
    (⟨0, 0, 0⟩ : NavVec3).nth 2 = some 0 ∧
    (⟨0, 0, 0⟩ : NavVec3).nth_set 0 1 = some ⟨1, 0, 0⟩ ∧
    (⟨0, 0, 0⟩ : NavVec3).nth_set 1 1 = some ⟨0, 1, 0⟩ ∧
    (⟨0, 0, 0⟩ : NavVec3).nth_set 2 1 = some ⟨0, 0, 1⟩ ∧
    (⟨0, 0, 0⟩ : NavVec3).nth 3 = none ∧ (⟨0, 0, 0⟩ : NavVec3).nth_set 3 1 = none :=
  C9_pointn_adapter ⟨0, 0, 0⟩ 1 3 (by norm_num)

/-- C1: whenever the pairwise deduplication of the plane-crossing contact
points of triangle 2's edges does not leave exactly 2 points,
triangles_intersection returns nothing. -/
theorem C1_dedup_count_guard (a1 b1 c1 a2 b2 c2 : NavVec3)
    (h : (dedup (trianglesContacts a1 b1 c1 a2 b2 c2)).length ≠ 2) :
    triangles_intersection a1 b1 c1 a2 b2 c2 = none := by
  have hstep : triangles_intersection_step a1 b1 c1 a2 b2 c2 = none := by
    unfold triangles_intersection_step
    rcases hd : dedup (trianglesContacts a1 b1 c1 a2 b2 c2) with _ | ⟨p, _ | ⟨q, _ | ⟨r, tl⟩⟩⟩
    · rfl
    · rfl
    · exact absurd (by rw [hd]; rfl) h
    · rfl
  unfold triangles_intersection
  rw [hstep]

/-- C1 witness: fully degenerate triangles produce an empty contact list
(count 0, not 2), and triangles_intersection returns nothing. -/
theorem C1_dedup_count_guard_witness :
    triangles_intersection ⟨0, 0, 0⟩ ⟨0, 0, 0⟩ ⟨0, 0, 0⟩ ⟨0, 0, 0⟩ ⟨0, 0, 0⟩ ⟨0, 0, 0⟩ =
      none :=
  C1_dedup_count_guard ⟨0, 0, 0⟩ ⟨0, 0, 0⟩ ⟨0, 0, 0⟩ ⟨0, 0, 0⟩ ⟨0, 0, 0⟩ ⟨0, 0, 0⟩ (by
    have hc : trianglesContacts ⟨0, 0, 0⟩ ⟨0, 0, 0⟩ ⟨0, 0, 0⟩ ⟨0, 0, 0⟩ ⟨0, 0, 0⟩ ⟨0, 0, 0⟩ =
        [] := by
      simp [trianglesContacts, raycast_plane_self]
    rw [hc]
    norm_num [dedup])

/-- C7: whenever triangles_intersection returns a segment, the returned
endpoint pair is canonically oriented: the cross product of the clipping
normal with (end minus begin) has a non-negative third component (the
source keeps the order when this already holds and swaps the endpoints,
markers included, otherwise). -/
theorem C7_orientation (a1 b1 c1 a2 b2 c2 : NavVec3)
    (r : (NavVec3 × Option NavConnection) × (NavVec3 × Option NavConnection) × NavVec3)
    (h : triangles_intersection a1 b1 c1 a2 b2 c2 = some r) :
    0 ≤ (r.2.2.cross (r.2.1.1 - r.1.1)).z := by
  unfold triangles_intersection at h
  rcases hstep : triangles_intersection_step a1 b1 c1 a2 b2 c2 with _ | ⟨b, e, n⟩
  · rw [hstep] at h
    exact Option.noConfusion h
  · rw [hstep] at h
    have h2 : (if 0 ≤ (n.cross (e.1 - b.1)).z then some (b, e, n) else some (e, b, n)) =
        some r := h
    by_cases hz : 0 ≤ (n.cross (e.1 - b.1)).z
    · rw [if_pos hz] at h2
      obtain rfl : (b, e, n) = r := Option.some.inj h2
      exact hz
    · rw [if_neg hz] at h2
      obtain rfl : (e, b, n) = r := Option.some.inj h2
      show 0 ≤ (n.cross (b.1 - e.1)).z
      rw [cross_sub_swap n b.1 e.1]
      have hneg : (-(n.cross (e.1 - b.1))).z = -((n.cross (e.1 - b.1)).z) := rfl
      rw [hneg]
      linarith [not_le.mp hz]

theorem ev1 : ((⟨4, 0, 0⟩ : NavVec3) - ⟨0, 0, 0⟩) = ⟨4, 0, 0⟩ := by rw [sub_mk]; norm_num

theorem ev2 : ((⟨4, 3, 0⟩ : NavVec3) - ⟨4, 0, 0⟩) = ⟨0, 3, 0⟩ := by rw [sub_mk]; norm_num

theorem ev3 : ((⟨0, 0, 0⟩ : NavVec3) - ⟨4, 3, 0⟩) = ⟨-4, -3, 0⟩ := by rw [sub_mk]; norm_num

theorem ev4 : (⟨4, 0, 0⟩ : NavVec3).normalize = ⟨1, 0, 0⟩ :=
  normalize_mk_eval 4 0 0 4 1 0 0 (by norm_num) (by norm_num) (by norm_num [ZERO_TRESHOLD])
    (by norm_num) (by norm_num) (by norm_num)

theorem ev5 : (⟨0, 3, 0⟩ : NavVec3).normalize = ⟨0, 1, 0⟩ :=
  normalize_mk_eval 0 3 0 3 0 1 0 (by norm_num) (by norm_num) (by norm_num [ZERO_TRESHOLD])
    (by norm_num) (by norm_num) (by norm_num)

theorem ev6 : (⟨-4, -3, 0⟩ : NavVec3).normalize = ⟨-4/5, -3/5, 0⟩ :=
  normalize_mk_eval (-4) (-3) 0 5 (-4/5) (-3/5) 0 (by norm_num) (by norm_num)
    (by norm_num [ZERO_TRESHOLD]) (by norm_num) (by norm_num) (by norm_num)

theorem ev7 : (⟨1, 0, 0⟩ : NavVec3).cross ⟨0, 1, 0⟩ = ⟨0, 0, 1⟩ := by
  rw [cross_mk]; norm_num

theorem ev8 : (⟨0, 0, 1⟩ : NavVec3).normalize = ⟨0, 0, 1⟩ :=
  normalize_mk_eval 0 0 1 1 0 0 1 (by norm_num) (by norm_num) (by norm_num [ZERO_TRESHOLD])
    (by norm_num) (by norm_num) (by norm_num)

theorem ev9 : (⟨1, 0, 0⟩ : NavVec3).cross ⟨0, 0, 1⟩ = ⟨0, -1, 0⟩ := by
  rw [cross_mk]; norm_num

theorem ev10 : (⟨0, 1, 0⟩ : NavVec3).cross ⟨0, 0, 1⟩ = ⟨1, 0, 0⟩ := by
  rw [cross_mk]; norm_num

theorem ev11 : (⟨-4/5, -3/5, 0⟩ : NavVec3).cross ⟨0, 0, 1⟩ = ⟨-3/5, 4/5, 0⟩ := by
  rw [cross_mk]; norm_num

/-- Normal of the witness triangle 1 (a 3-4-5 right triangle in z=0). -/
theorem trisect_n1 : triangleNormal ⟨0, 0, 0⟩ ⟨4, 0, 0⟩ ⟨4, 3, 0⟩ = ⟨0, 0, 1⟩ := by
  rw [triangleNormal, ev1, ev2, ev4, ev5, ev7, ev8]

theorem ev12 : ((⟨2, 1/2, 1⟩ : NavVec3) - ⟨2, 1/2, -1⟩) = ⟨0, 0, 2⟩ := by
  rw [sub_mk]; norm_num

theorem ev13 : ((⟨2, 2, -1⟩ : NavVec3) - ⟨2, 1/2, 1⟩) = ⟨0, 3/2, -2⟩ := by
  rw [sub_mk]; norm_num

theorem ev14 : (⟨0, 0, 2⟩ : NavVec3).normalize = ⟨0, 0, 1⟩ :=
  normalize_mk_eval 0 0 2 2 0 0 1 (by norm_num) (by norm_num) (by norm_num [ZERO_TRESHOLD])
    (by norm_num) (by norm_num) (by norm_num)

theorem ev15 : (⟨0, 3/2, -2⟩ : NavVec3).normalize = ⟨0, 3/5, -4/5⟩ :=
  normalize_mk_eval 0 (3/2) (-2) (5/2) 0 (3/5) (-4/5) (by norm_num) (by norm_num)
    (by norm_num [ZERO_TRESHOLD]) (by norm_num) (by norm_num) (by norm_num)

theorem ev16 : (⟨0, 0, 1⟩ : NavVec3).cross ⟨0, 3/5, -4/5⟩ = ⟨-3/5, 0, 0⟩ := by
  rw [cross_mk]; norm_num

theorem ev17 : (⟨-3/5, 0, 0⟩ : NavVec3).normalize = ⟨-1, 0, 0⟩ :=
  normalize_mk_eval (-3/5) 0 0 (3/5) (-1) 0 0 (by norm_num) (by norm_num)
    (by norm_num [ZERO_TRESHOLD]) (by norm_num) (by norm_num) (by norm_num)

/-- Normal of the witness triangle 2 (a vertical triangle in the x=2 plane). -/
theorem trisect_n2 :
    triangleNormal ⟨2, 1/2, -1⟩ ⟨2, 1/2, 1⟩ ⟨2, 2, -1⟩ = ⟨-1, 0, 0⟩ := by
  rw [triangleNormal, ev12, ev13, ev14, ev15, ev16, ev17]

theorem raycast_line_exact_none_of_plane (f t a b normal : NavVec3)
    (h : raycast_plane f t a normal = none) :
    raycast_line_exact f t a b normal = none := by
  simp [raycast_line_exact, h]

theorem raycast_line_exact_none_of_param (f t a b normal p : NavVec3)
    (hp : raycast_plane f t a normal = some p)
    (h : ¬(0 ≤ project p a b ∧ project p a b ≤ 1)) :
    raycast_line_exact f t a b normal = none := by
  simp only [raycast_line_exact, hp]
  rw [if_neg h]

/-- Witness edge cast 1: the vertical edge of triangle 2 crosses the z=0
plane at (2, 1/2, 0). -/
theorem trisect_p1 :
    raycast_plane ⟨2, 1/2, -1⟩ ⟨2, 1/2, 1⟩ ⟨0, 0, 0⟩ ⟨0, 0, 1⟩ = some ⟨2, 1/2, 0⟩ := by
  have hso : ((⟨0, 0, 0⟩ : NavVec3) - ⟨2, 1/2, -1⟩) = ⟨-2, -1/2, 1⟩ := by
    rw [sub_mk]; norm_num
  have hrw := raycast_plane_eval ⟨2, 1/2, -1⟩ ⟨2, 1/2, 1⟩ ⟨0, 0, 0⟩ ⟨0, 0, 1⟩ ⟨0, 0, 1⟩ 2 1
    (by rw [ev12]; exact ev14)
    (by rw [ev12]; exact magnitude_mk_eval 0 0 2 2 (by norm_num) (by norm_num))
    (by rw [dot_mk]; norm_num [ZERO_TRESHOLD, abs_of_pos])
    (by rw [hso, dot_mk, dot_mk]; norm_num)
    (by norm_num) (by norm_num)
  rw [hrw, smul_mk, add_mk]
  norm_num

/-- Witness edge cast 2: the slanted edge of triangle 2 crosses the z=0
plane at (2, 5/4, 0). -/
theorem trisect_p2 :
    raycast_plane ⟨2, 1/2, 1⟩ ⟨2, 2, -1⟩ ⟨0, 0, 0⟩ ⟨0, 0, 1⟩ = some ⟨2, 5/4, 0⟩ := by
  have hso : ((⟨0, 0, 0⟩ : NavVec3) - ⟨2, 1/2, 1⟩) = ⟨-2, -1/2, -1⟩ := by
    rw [sub_mk]; norm_num
  have habs : |(0 : ℝ) * 0 + 0 * (3/5) + 1 * (-4/5)| = 4/5 := by
    rw [show (0 : ℝ) * 0 + 0 * (3/5) + 1 * (-4/5) = -(4/5) from by norm_num, abs_neg,
      abs_of_pos]
    norm_num
  have hrw := raycast_plane_eval ⟨2, 1/2, 1⟩ ⟨2, 2, -1⟩ ⟨0, 0, 0⟩ ⟨0, 0, 1⟩
    ⟨0, 3/5, -4/5⟩ (5/2) (5/4)
    (by rw [ev13]; exact ev15)
    (by rw [ev13]; exact magnitude_mk_eval 0 (3/2) (-2) (5/2) (by norm_num) (by norm_num))
    (by rw [dot_mk, habs]; norm_num [ZERO_TRESHOLD])
    (by rw [hso, dot_mk, dot_mk]; norm_num)
    (by norm_num) (by norm_num)
  rw [hrw, smul_mk, add_mk]
  norm_num

/-- Witness edge cast 3: the bottom edge of triangle 2 is parallel to the
z=0 plane, so the cast fails. -/
theorem trisect_p3 :
    raycast_plane ⟨2, 2, -1⟩ ⟨2, 1/2, -1⟩ ⟨0, 0, 0⟩ ⟨0, 0, 1⟩ = none := by
  apply raycast_plane_none_of_denom
  rw [show ((⟨2, 1/2, -1⟩ : NavVec3) - ⟨2, 2, -1⟩) = ⟨0, -3/2, 0⟩ from by rw [sub_mk]; norm_num,
    normalize_mk_eval 0 (-3/2) 0 (3/2) 0 (-1) 0 (by norm_num) (by norm_num)
      (by norm_num [ZERO_TRESHOLD]) (by norm_num) (by norm_num) (by norm_num),
    dot_mk]
  norm_num [ZERO_TRESHOLD]

/-- Witness contact list: exactly the two crossing points of triangle 2's
boundary with triangle 1's plane. -/
theorem trisect_contacts :
    trianglesContacts ⟨0, 0, 0⟩ ⟨4, 0, 0⟩ ⟨4, 3, 0⟩ ⟨2, 1/2, -1⟩ ⟨2, 1/2, 1⟩ ⟨2, 2, -1⟩ =
      [⟨2, 1/2, 0⟩, ⟨2, 5/4, 0⟩] := by
  rw [trianglesContacts, trisect_n1]
  simp only [List.filterMap_cons, List.filterMap_nil, trisect_p1, trisect_p2, trisect_p3]

/-- Witness deduplication: the two contact points are farther apart than
the zero threshold, so both survive. -/
theorem trisect_dedup :
    dedup [⟨2, 1/2, 0⟩, ⟨2, 5/4, 0⟩] = [⟨2, 1/2, 0⟩, ⟨2, 5/4, 0⟩] := by
  have hc1 : ¬ ∃ q ∈ [(⟨2, 5/4, 0⟩ : NavVec3)],
      ((⟨2, 1/2, 0⟩ : NavVec3) - q).sqr_magnitude < ZERO_TRESHOLD := by
    rintro ⟨q, hq, hlt⟩
    rw [List.mem_singleton] at hq
    subst hq
    rw [sub_mk, sqr_magnitude_mk] at hlt
    norm_num [ZERO_TRESHOLD] at hlt
  have hc2 : ¬ ∃ q ∈ ([] : List NavVec3),
      ((⟨2, 5/4, 0⟩ : NavVec3) - q).sqr_magnitude < ZERO_TRESHOLD := by
    rintro ⟨q, hq, hlt⟩
    exact List.not_mem_nil q hq
  simp only [dedup, if_neg hc1, if_neg hc2]

/-- Witness gating check: the first contact point lies strictly inside
triangle 1, so does_line_crosses_triangle holds via its first disjunct. -/
theorem trisect_crosses :
    does_line_crosses_triangle ⟨2, 1/2, 0⟩ ⟨2, 5/4, 0⟩ ⟨0, 0, 0⟩ ⟨4, 0, 0⟩ ⟨4, 3, 0⟩ := by
  simp only [does_line_crosses_triangle, ev1, ev2, ev3, ev4, ev5, ev6, ev7, ev8, ev9, ev10,
    ev11]
  left
  refine ⟨?_, ?_, ?_⟩ <;>
  · simp only [is_above_plane, distance_to_plane, neg_mk, sub_mk, dot_mk]
    norm_num [ZERO_TRESHOLD]

/-- Witness clip direction: triangle 2's scaled normal projected onto
triangle 1's plane and normalized. -/
theorem trisect_no :
    (project_on_plane ((⟨-1, 0, 0⟩ : NavVec3) * (100 : Scalar)) ⟨0, 0, 0⟩
      ⟨0, 0, 1⟩).normalize = ⟨-1, 0, 0⟩ := by
  rw [show ((⟨-1, 0, 0⟩ : NavVec3) * (100 : Scalar)) = ⟨-100, 0, 0⟩ from by
    rw [smul_mk]; norm_num]
  have hp : project_on_plane ⟨-100, 0, 0⟩ ⟨0, 0, 0⟩ ⟨0, 0, 1⟩ = (⟨-100, 0, 0⟩ : NavVec3) := by
    simp only [project_on_plane, ev8, sub_mk, dot_mk]
    norm_num
  rw [hp]
  exact normalize_mk_eval (-100) 0 0 100 (-1) 0 0 (by norm_num) (by norm_num)
    (by norm_num [ZERO_TRESHOLD]) (by norm_num) (by norm_num) (by norm_num)

theorem evse : ((⟨2, 5/4, 0⟩ : NavVec3) - ⟨2, 1/2, 0⟩) = ⟨0, 3/4, 0⟩ := by
  rw [sub_mk]; norm_num

/-- Witness clip cast 1: the candidate segment misses triangle 1's first
edge (the exact interpolation parameter is negative). -/
theorem trisect_clipA :
    raycast_line_exact ⟨0, 0, 0⟩ ⟨4, 0, 0⟩ ⟨2, 1/2, 0⟩ ⟨2, 5/4, 0⟩ ⟨-1, 0, 0⟩ = none := by
  have habs : |(-1 : ℝ) * 1 + 0 * 0 + 0 * 0| = 1 := by
    rw [show (-1 : ℝ) * 1 + 0 * 0 + 0 * 0 = -1 from by norm_num, abs_neg, abs_one]
  have hso : ((⟨2, 1/2, 0⟩ : NavVec3) - ⟨0, 0, 0⟩) = ⟨2, 1/2, 0⟩ := by
    rw [sub_mk]; norm_num
  have hplane := raycast_plane_eval ⟨0, 0, 0⟩ ⟨4, 0, 0⟩ ⟨2, 1/2, 0⟩ ⟨-1, 0, 0⟩ ⟨1, 0, 0⟩ 4 2
    (by rw [ev1]; exact ev4)
    (by rw [ev1]; exact magnitude_mk_eval 4 0 0 4 (by norm_num) (by norm_num))
    (by rw [dot_mk, habs]; norm_num [ZERO_TRESHOLD])
    (by rw [hso, dot_mk, dot_mk]; norm_num)
    (by norm_num) (by norm_num)
  have hplane2 : raycast_plane ⟨0, 0, 0⟩ ⟨4, 0, 0⟩ ⟨2, 1/2, 0⟩ ⟨-1, 0, 0⟩ =
      some ⟨2, 0, 0⟩ := by
    rw [hplane, smul_mk, add_mk]; norm_num
  have hsub : ((⟨2, 0, 0⟩ : NavVec3) - ⟨2, 1/2, 0⟩) = ⟨0, -1/2, 0⟩ := by
    rw [sub_mk]; norm_num
  have hproj : project ⟨2, 0, 0⟩ ⟨2, 1/2, 0⟩ ⟨2, 5/4, 0⟩ = -2/3 := by
    rw [project, evse, hsub, dot_mk, sqr_magnitude_mk]
    norm_num
  refine raycast_line_exact_none_of_param _ _ _ _ _ _ hplane2 ?_
  rw [hproj]
  rintro ⟨h1, h2⟩
  norm_num at h1

/-- Witness clip cast 2: triangle 1's second edge is parallel to the
clipping plane, so the cast fails. -/
theorem trisect_clipB :
    raycast_line_exact ⟨4, 0, 0⟩ ⟨4, 3, 0⟩ ⟨2, 1/2, 0⟩ ⟨2, 5/4, 0⟩ ⟨-1, 0, 0⟩ = none := by
  apply raycast_line_exact_none_of_plane
  apply raycast_plane_none_of_denom
  rw [ev2, ev5, dot_mk]
  norm_num [ZERO_TRESHOLD]

/-- Witness clip cast 3: the candidate segment misses triangle 1's third
edge (the exact interpolation parameter exceeds 1). -/
theorem trisect_clipC :
    raycast_line_exact ⟨4, 3, 0⟩ ⟨0, 0, 0⟩ ⟨2, 1/2, 0⟩ ⟨2, 5/4, 0⟩ ⟨-1, 0, 0⟩ = none := by
  have habs : |(-1 : ℝ) * (-4/5) + 0 * (-3/5) + 0 * 0| = 4/5 := by
    rw [show (-1 : ℝ) * (-4/5) + 0 * (-3/5) + 0 * 0 = 4/5 from by norm_num, abs_of_pos]
    norm_num
  have hso : ((⟨2, 1/2, 0⟩ : NavVec3) - ⟨4, 3, 0⟩) = ⟨-2, -5/2, 0⟩ := by
    rw [sub_mk]; norm_num
  have hplane := raycast_plane_eval ⟨4, 3, 0⟩ ⟨0, 0, 0⟩ ⟨2, 1/2, 0⟩ ⟨-1, 0, 0⟩
    ⟨-4/5, -3/5, 0⟩ 5 (5/2)
    (by rw [ev3]; exact ev6)
    (by rw [ev3]; exact magnitude_mk_eval (-4) (-3) 0 5 (by norm_num) (by norm_num))
    (by rw [dot_mk, habs]; norm_num [ZERO_TRESHOLD])
    (by rw [hso, dot_mk, dot_mk]; norm_num)
    (by norm_num) (by norm_num)
  have hplane2 : raycast_plane ⟨4, 3, 0⟩ ⟨0, 0, 0⟩ ⟨2, 1/2, 0⟩ ⟨-1, 0, 0⟩ =
      some ⟨2, 3/2, 0⟩ := by
    rw [hplane, smul_mk, add_mk]; norm_num
  have hsub : ((⟨2, 3/2, 0⟩ : NavVec3) - ⟨2, 1/2, 0⟩) = ⟨0, 1, 0⟩ := by
    rw [sub_mk]; norm_num
  have hproj : project ⟨2, 3/2, 0⟩ ⟨2, 1/2, 0⟩ ⟨2, 5/4, 0⟩ = 4/3 := by
    rw [project, evse, hsub, dot_mk, sqr_magnitude_mk]
    norm_num
  refine raycast_line_exact_none_of_param _ _ _ _ _ _ hplane2 ?_
  rw [hproj]
  rintro ⟨h1, h2⟩
  norm_num at h2

/-- Witness resolution step: no clip point survives, so the two original
contact points form the (unoriented) result segment. -/
theorem trisect_step :
    triangles_intersection_step ⟨0, 0, 0⟩ ⟨4, 0, 0⟩ ⟨4, 3, 0⟩ ⟨2, 1/2, -1⟩ ⟨2, 1/2, 1⟩
      ⟨2, 2, -1⟩ = some ((⟨2, 1/2, 0⟩, none), (⟨2, 5/4, 0⟩, none), ⟨-1, 0, 0⟩) := by
  have hdd : dedup (trianglesContacts ⟨0, 0, 0⟩ ⟨4, 0, 0⟩ ⟨4, 3, 0⟩ ⟨2, 1/2, -1⟩
      ⟨2, 1/2, 1⟩ ⟨2, 2, -1⟩) = [⟨2, 1/2, 0⟩, ⟨2, 5/4, 0⟩] := by
    rw [trisect_contacts, trisect_dedup]
  simp only [triangles_intersection_step, trisect_n1, trisect_n2, hdd,
    if_pos trisect_crosses, trisect_no, List.filterMap_cons, List.filterMap_nil,
    trisect_clipA, trisect_clipB, trisect_clipC, Option.map_none']

/-- Witness full evaluation: the orientation step swaps the endpoints
because the clip normal crossed with (end - begin) points downward. -/
theorem trisect_full :
    triangles_intersection ⟨0, 0, 0⟩ ⟨4, 0, 0⟩ ⟨4, 3, 0⟩ ⟨2, 1/2, -1⟩ ⟨2, 1/2, 1⟩
      ⟨2, 2, -1⟩ = some ((⟨2, 5/4, 0⟩, none), (⟨2, 1/2, 0⟩, none), ⟨-1, 0, 0⟩) := by
  have hz : ¬ 0 ≤ (((⟨-1, 0, 0⟩ : NavVec3)).cross
      ((⟨2, 5/4, 0⟩ : NavVec3) - ⟨2, 1/2, 0⟩)).z := by
    rw [evse, cross_mk]
    show ¬ (0 : ℝ) ≤ -1 * (3/4) - 0 * 0
    norm_num
  simp only [triangles_intersection, trisect_step]
  rw [if_neg hz]

/-- C7 witness: at a concrete pair of intersecting triangles the source
swaps the endpoint pair, and the returned segment satisfies the canonical
orientation invariant. -/
theorem C7_orientation_witness :
    0 ≤ (((⟨-1, 0, 0⟩ : NavVec3)).cross
      ((⟨2, 1/2, 0⟩ : NavVec3) - ⟨2, 5/4, 0⟩)).z :=
  C7_orientation ⟨0, 0, 0⟩ ⟨4, 0, 0⟩ ⟨4, 3, 0⟩ ⟨2, 1/2, -1⟩ ⟨2, 1/2, 1⟩ ⟨2, 2, -1⟩
    ((⟨2, 5/4, 0⟩, none), (⟨2, 1/2, 0⟩, none), ⟨-1, 0, 0⟩) trisect_full

end NavVec3
